import Mathlib

/-!
Shallow embedding of src/winchmotor.go (package winchmotor), a Viam motor
component driving a single GPIO pin on a board dependency.

Modelling conventions:
- Go float64 power/rpm values are modelled as rationals; the source only
  compares them with == against literals, which the rational model captures.
- A Go interface value that may be nil is modelled as an Option; invoking a
  method on a nil interface is a runtime panic, modelled by the Res.crash
  outcome.
- The board.Board collaborator is modelled as a test double recording which
  pin names exist and which pin writes fail.
- Observable effects (pin lookup, pin write, logger output) are collected in
  an event trace returned alongside each result.
-/

/-- Error values that appear in the embedded code paths. Err.unbound is the
Unbound error kind named by the specification; the source never constructs
it, and it is declared here only so statements about it can be written. -/
inductive Err where
  | unimplemented : Err
  | unbound : Err
  | nativeConfig : Err
  | missingDep : String → Err
  | pinLookup : String → Err
  | pinSet : String → Err
  | depResolution : Err → String → Err
deriving DecidableEq, Repr

/-- Observable events: a pin lookup on a board, a pin write with a logic
level, and an error delivered to the diagnostic sink. -/
inductive Event where
  | lookup : String → Event
  | write : String → Bool → Event
  | log : Err → Event
deriving DecidableEq, Repr

/-- Outcome of a call: normal return with a value, normal return with a
non-nil Go error, or a runtime panic (nil interface dereference). -/
inductive Res (α : Type) where
  | ok : α → Res α
  | err : Err → Res α
  | crash : Res α
deriving DecidableEq, Repr

/-- Test double for the external board.Board collaborator: which pin names
resolve via GPIOPinByName, and which pin writes fail at Set. -/
structure Board where
  hasPin : String → Bool
  setFails : String → Bool

/-- Token standing for a non-nil logging.Logger diagnostic sink. -/
structure Logger where
  id : Nat
deriving DecidableEq, Repr

/-- The winchmotor struct: resource.Named identity, the board field
(nil before the first successful Reconfigure), and the logger field. -/
structure Winchmotor where
  name : String
  logger : Option Logger
  board : Option Board

/-- const propellerPinName = "29" -/
def propellerPinName : String := "29"

/-- var turningPinNames = []string{"40", "38", "36", "32"} -/
def turningPinNames : List String := ["40", "38", "36", "32"]

/-- var wenchPinNames = []string{"31", "33", "35", "37"} -/
def wenchPinNames : List String := ["31", "33", "35", "37"]

/-- type pinValue struct { name string; high bool } -/
structure pinValue where
  name : String
  high : Bool
deriving DecidableEq, Repr

/-- type Config struct { Board string `json:"board-1"` } -/
structure Config where
  Board : String
deriving DecidableEq, Repr

/-- motor.Properties; its Go zero value has PositionReporting = false. -/
structure MotorProperties where
  PositionReporting : Bool
deriving DecidableEq, Repr

/-- newWinchMotor: builds the component with Named identity and logger set
and the board field at its zero value (nil). The deps argument is unused
because the Reconfigure call in the constructor is commented out. Returns
(component, error, events); the error is always nil. -/
def newWinchMotor (deps : String → Option Board) (name : String)
    (lg : Option Logger) : Winchmotor × Option Err × List Event :=
  ({ name := name, logger := lg, board := none }, none, [])

/-- setPin(b board.Board, l logging.Logger, pv pinValue):
looks up pv.name on b, logs and returns the error on lookup failure,
otherwise sets the pin to pv.high, logging and returning the error on write
failure. A nil board crashes at b.GPIOPinByName before any board event; a
nil logger crashes at l.Error when a failure is being logged. -/
def setPin (b : Option Board) (l : Option Logger) (pv : pinValue) :
    Res Unit × List Event :=
  match b with
  | none => (Res.crash, [])
  | some bd =>
    if bd.hasPin pv.name then
      if bd.setFails pv.name then
        match l with
        | none => (Res.crash, [Event.lookup pv.name])
        | some _ =>
          (Res.err (Err.pinSet pv.name),
           [Event.lookup pv.name, Event.log (Err.pinSet pv.name)])
      else
        (Res.ok (), [Event.lookup pv.name, Event.write pv.name pv.high])
    else
      match l with
      | none => (Res.crash, [Event.lookup pv.name])
      | some _ =>
        (Res.err (Err.pinLookup pv.name),
         [Event.lookup pv.name, Event.log (Err.pinLookup pv.name)])

/-- SetPower(ctx, powerPct, extra): calls
setPin(wm.board, nil, pinValue{propellerPinName, powerPct == 1}) and
returns its error. Note the literal nil logger argument and the absence of
any bound-check on wm.board. -/
def SetPower (wm : Winchmotor) (powerPct : ℚ) : Res Unit × List Event :=
  setPin wm.board none { name := propellerPinName, high := decide (powerPct = 1) }

/-- resource.NativeConfig step of Reconfigure: the generic config either
converts to the native Config or fails. -/
def NativeConfig (conf : Option Config) : Except Err Config :=
  match conf with
  | some c => Except.ok c
  | none => Except.error Err.nativeConfig

/-- board.FromDependencies(deps, name): returns (handle, nil) when the name
resolves and (nil, error) when it does not. -/
def FromDependencies (deps : String → Option Board) (name : String) :
    Option Board × Option Err :=
  match deps name with
  | some b => (some b, none)
  | none => (none, some (Err.missingDep name))

/-- Reconfigure(ctx, deps, conf): sets wm.board = nil, converts the config
(returning the conversion error unchanged on failure), then assigns
wm.board from board.FromDependencies and on resolution failure returns
errors.Wrapf(err, "unable to get board %v for mybase", baseConfig.Board),
modelled as Err.depResolution cause boardName. Returns
(updated component, error, events). -/
def Reconfigure (wm : Winchmotor) (deps : String → Option Board)
    (conf : Option Config) : Winchmotor × Option Err × List Event :=
  let wm1 : Winchmotor := { wm with board := none }
  match NativeConfig conf with
  | Except.error e => (wm1, some e, [])
  | Except.ok baseConfig =>
    let r := FromDependencies deps baseConfig.Board
    match r.2 with
    | none => ({ wm1 with board := r.1 }, none, [])
    | some e =>
      ({ wm1 with board := r.1 },
       some (Err.depResolution e baseConfig.Board), [])

/-- GoFor(ctx, rpm, revolutions, extra): returns errUnimplemented. -/
def GoFor (wm : Winchmotor) (rpm revolutions : ℚ) :
    Winchmotor × Option Err × List Event :=
  (wm, some Err.unimplemented, [])

/-- GoTo(ctx, rpm, positionRevolutions, extra): returns errUnimplemented. -/
def GoTo (wm : Winchmotor) (rpm positionRevolutions : ℚ) :
    Winchmotor × Option Err × List Event :=
  (wm, some Err.unimplemented, [])

/-- SetRPM(ctx, rpm, extra): returns errUnimplemented. -/
def SetRPM (wm : Winchmotor) (rpm : ℚ) :
    Winchmotor × Option Err × List Event :=
  (wm, some Err.unimplemented, [])

/-- ResetZeroPosition(ctx, offset, extra): returns errUnimplemented. -/
def ResetZeroPosition (wm : Winchmotor) (offset : ℚ) :
    Winchmotor × Option Err × List Event :=
  (wm, some Err.unimplemented, [])

/-- Position(ctx, extra): returns (0, errUnimplemented). -/
def Position (wm : Winchmotor) :
    Winchmotor × ℚ × Option Err × List Event :=
  (wm, 0, some Err.unimplemented, [])

/-- IsMoving(ctx): returns (false, errUnimplemented). -/
def IsMoving (wm : Winchmotor) :
    Winchmotor × Bool × Option Err × List Event :=
  (wm, false, some Err.unimplemented, [])

/-- IsPowered(ctx, extra): returns (false, 0.0, errUnimplemented). -/
def IsPowered (wm : Winchmotor) :
    Winchmotor × Bool × ℚ × Option Err × List Event :=
  (wm, false, 0, some Err.unimplemented, [])

/-- Properties(ctx, extra): returns (motor.Properties{}, errUnimplemented). -/
def Properties (wm : Winchmotor) :
    Winchmotor × MotorProperties × Option Err × List Event :=
  (wm, { PositionReporting := false }, some Err.unimplemented, [])

/-- Stop(ctx, extra): returns errUnimplemented. -/
def Stop (wm : Winchmotor) : Winchmotor × Option Err × List Event :=
  (wm, some Err.unimplemented, [])

/-- Close(ctx): returns errUnimplemented (the Stop call is commented out). -/
def Close (wm : Winchmotor) : Winchmotor × Option Err × List Event :=
  (wm, some Err.unimplemented, [])

/-- Validate(path): returns []string{""}, nil. -/
def Validate (cfg : Config) (path : String) : List String × Option Err :=
  ([""], none)

/- Concrete test doubles used by witnesses and counterexamples. -/

/-- A board on which every pin exists and every write succeeds. -/
def goodBoard : Board := { hasPin := fun _ => true, setFails := fun _ => false }

/-- A board on which no pin exists. -/
def noPinBoard : Board := { hasPin := fun _ => false, setFails := fun _ => false }

/-- A board on which every pin exists but every write fails. -/
def failSetBoard : Board := { hasPin := fun _ => true, setFails := fun _ => true }

/-- A sample non-nil diagnostic sink. -/
def lg0 : Logger := { id := 0 }

/-- A component bound to goodBoard. -/
def boundWM : Winchmotor :=
  { name := "m", logger := some lg0, board := some goodBoard }

/-- An unbound component (board field nil). -/
def unboundWM : Winchmotor :=
  { name := "m", logger := some lg0, board := none }

/-- A component bound to a board that has no pins. -/
def badBoundWM : Winchmotor :=
  { name := "m", logger := some lg0, board := some noPinBoard }

/-- A dependency set resolving exactly the name "b1" to goodBoard. -/
def deps1 : String → Option Board :=
  fun n => if n = "b1" then some goodBoard else none

/-- A component bound to a board whose pins exist but whose writes fail. -/
def failBoundWM : Winchmotor :=
  { name := "m", logger := some lg0, board := some failSetBoard }

/-- Message of the single shared error value returned by every unsupported
capability operation: var errUnimplemented = errors.New("unimplemented").
The message is this fixed string; it names no operation. -/
def errUnimplementedMessage : String := "unimplemented"

/-- C1: on a bound component whose board has the propeller pin and whose
write succeeds, SetPower drives the propeller pin high exactly when the
power value equals 1, and drives it low for every other value. -/
theorem setpower_high_iff_one (wm : Winchmotor) (b : Board) (p : ℚ)
    (hb : wm.board = some b)
    (hp : b.hasPin propellerPinName = true)
    (hs : b.setFails propellerPinName = false) :
    (SetPower wm p).1 = Res.ok () ∧
    ((SetPower wm p).2
        = [Event.lookup propellerPinName, Event.write propellerPinName true]
      ↔ p = 1) ∧
    (p ≠ 1 →
      (SetPower wm p).2
        = [Event.lookup propellerPinName, Event.write propellerPinName false]) := by
  refine ⟨?_, ?_, ?_⟩
  · simp [SetPower, setPin, hb, hp, hs]
  · simp [SetPower, setPin, hb, hp, hs]
  · intro h
    simp [SetPower, setPin, hb, hp, hs, h]

/-- Witness for setpower_high_iff_one at a concrete bound component and
power 1: the trace ends with a logic-high write of pin 29. -/
theorem setpower_high_iff_one_witness :
    boundWM.board = some goodBoard ∧
    (SetPower boundWM 1).2
      = [Event.lookup propellerPinName, Event.write propellerPinName true] := by
  refine ⟨rfl, ?_⟩
  exact (setpower_high_iff_one boundWM goodBoard 1 rfl rfl rfl).2.1.mpr rfl

/-- C2 counterexample: on the concrete unbound component, SetPower at power
0 crashes with a nil-handle dereference and performs no board event; it
does not return the Unbound error the claim requires. -/
theorem setpower_unbound_counterexample :
    SetPower unboundWM 0 = (Res.crash, []) ∧
    (SetPower unboundWM 0).1 ≠ Res.err Err.unbound := by
  refine ⟨rfl, ?_⟩
  intro h
  exact absurd h (by decide)

/-- C2 amended: for every power value, SetPower on an unbound component
performs zero pin operations against any board handle, but it crashes
(nil interface dereference inside setPin) instead of failing with an
Unbound error, because SetPower performs no bound-check. -/
theorem setpower_unbound_crashes (wm : Winchmotor) (p : ℚ)
    (hb : wm.board = none) :
    SetPower wm p = (Res.crash, []) := by
  simp [SetPower, setPin, hb]

/-- Witness for setpower_unbound_crashes at the concrete unbound component
and power one half. -/
theorem setpower_unbound_crashes_witness :
    SetPower unboundWM (1 / 2) = (Res.crash, []) :=
  setpower_unbound_crashes unboundWM (1 / 2) rfl

/-- C3: whenever board-name resolution fails, Reconfigure returns the
dependency-resolution error wrapping the underlying cause and the attempted
board name, and leaves the component unbound regardless of any prior
binding, with no events. -/
theorem reconfigure_resolution_failure (wm : Winchmotor)
    (deps : String → Option Board) (cfg : Config)
    (hres : deps cfg.Board = none) :
    Reconfigure wm deps (some cfg)
      = ({ wm with board := none },
         some (Err.depResolution (Err.missingDep cfg.Board) cfg.Board),
         []) := by
  simp [Reconfigure, NativeConfig, FromDependencies, hres]

/-- Witness for reconfigure_resolution_failure: a previously bound
component reconfigured with an unresolvable name ends up unbound with the
wrapped error. -/
theorem reconfigure_resolution_failure_witness :
    deps1 "missing" = none ∧
    Reconfigure boundWM deps1 (some { Board := "missing" })
      = ({ boundWM with board := none },
         some (Err.depResolution (Err.missingDep "missing") "missing"),
         []) := by
  refine ⟨rfl, ?_⟩
  exact reconfigure_resolution_failure boundWM deps1 { Board := "missing" } rfl

/-- C4 counterexample: on a bound component whose board lacks the propeller
pin, SetPower crashes at the nil diagnostic sink instead of logging the
error and returning it: the result is a crash, not an error return, and the
trace contains no log event. -/
theorem setpower_pinfailure_counterexample :
    SetPower badBoundWM 0 = (Res.crash, [Event.lookup propellerPinName]) := by
  rfl

/-- C4 amended: when the pin-write primitive setPin is invoked with a
non-nil diagnostic sink, a lookup or write failure is delivered to the sink
before the (unwrapped) underlying error is returned, with exactly one
attempt; but SetPower passes a nil sink into setPin, so any pin failure
during SetPower — lookup failure or write failure alike — crashes at the
logging call instead. -/
theorem setpin_failure_logged_then_returned (b : Board) (l : Logger)
    (pv : pinValue) (wm : Winchmotor) (p : ℚ) (hb : wm.board = some b) :
    (b.hasPin pv.name = false →
      setPin (some b) (some l) pv
        = (Res.err (Err.pinLookup pv.name),
           [Event.lookup pv.name, Event.log (Err.pinLookup pv.name)])) ∧
    (b.hasPin pv.name = true → b.setFails pv.name = true →
      setPin (some b) (some l) pv
        = (Res.err (Err.pinSet pv.name),
           [Event.lookup pv.name, Event.log (Err.pinSet pv.name)])) ∧
    (b.hasPin propellerPinName = false →
      SetPower wm p = (Res.crash, [Event.lookup propellerPinName])) ∧
    (b.hasPin propellerPinName = true → b.setFails propellerPinName = true →
      SetPower wm p = (Res.crash, [Event.lookup propellerPinName])) := by
  refine ⟨?_, ?_, ?_, ?_⟩
  · intro h
    simp [setPin, h]
  · intro h1 h2
    simp [setPin, h1, h2]
  · intro h
    simp [SetPower, setPin, hb, h]
  · intro h1 h2
    simp [SetPower, setPin, hb, h1, h2]

/-- Witness for setpin_failure_logged_then_returned: on a board with no
pins and a real sink, the lookup error is logged and returned; and on a
bound component whose pin writes fail, SetPower crashes after the lookup. -/
theorem setpin_failure_logged_then_returned_witness :
    noPinBoard.hasPin "29" = false ∧
    setPin (some noPinBoard) (some lg0) { name := "29", high := true }
      = (Res.err (Err.pinLookup "29"),
         [Event.lookup "29", Event.log (Err.pinLookup "29")]) ∧
    SetPower failBoundWM 1 = (Res.crash, [Event.lookup propellerPinName]) := by
  refine ⟨rfl, ?_, ?_⟩
  · exact (setpin_failure_logged_then_returned noPinBoard lg0
      { name := "29", high := true } badBoundWM 0 rfl).1 rfl
  · exact (setpin_failure_logged_then_returned failSetBoard lg0
      { name := "29", high := true } failBoundWM 1 rfl).2.2.2 rfl rfl

/-- C5 counterexample: at concrete inputs, all nine unsupported operations
return the identical shared unimplemented error value, whose message is the
fixed string "unimplemented"; the error therefore does not identify the
operation name as the claim requires (a name-identifying error would differ
across GoFor, Stop, and the rest, or carry the name in its message). -/
theorem capability_stub_shared_error_counterexample :
    (GoFor unboundWM 2 3).2.1 = some Err.unimplemented ∧
    (GoTo unboundWM 2 3).2.1 = some Err.unimplemented ∧
    (SetRPM unboundWM 2).2.1 = some Err.unimplemented ∧
    (ResetZeroPosition unboundWM 2).2.1 = some Err.unimplemented ∧
    (Position unboundWM).2.2.1 = some Err.unimplemented ∧
    (IsMoving unboundWM).2.2.1 = some Err.unimplemented ∧
    (IsPowered unboundWM).2.2.2.1 = some Err.unimplemented ∧
    (Properties unboundWM).2.2.1 = some Err.unimplemented ∧
    (Stop unboundWM).2.1 = some Err.unimplemented ∧
    errUnimplementedMessage = "unimplemented" :=
  ⟨rfl, rfl, rfl, rfl, rfl, rfl, rfl, rfl, rfl, rfl⟩

/-- C5 amended: each of the nine unsupported capability operations fails
for every input with the single shared unimplemented error — one value for
all nine, with the fixed message "unimplemented", identifying no operation
name — leaving the component unchanged and producing no events (no state
mutation, no hardware access). -/
theorem capability_stubs_unimplemented :
    (∀ (wm : Winchmotor) (rpm revolutions : ℚ),
      GoFor wm rpm revolutions = (wm, some Err.unimplemented, [])) ∧
    (∀ (wm : Winchmotor) (rpm positionRevolutions : ℚ),
      GoTo wm rpm positionRevolutions = (wm, some Err.unimplemented, [])) ∧
    (∀ (wm : Winchmotor) (rpm : ℚ),
      SetRPM wm rpm = (wm, some Err.unimplemented, [])) ∧
    (∀ (wm : Winchmotor) (offset : ℚ),
      ResetZeroPosition wm offset = (wm, some Err.unimplemented, [])) ∧
    (∀ wm : Winchmotor, Position wm = (wm, 0, some Err.unimplemented, [])) ∧
    (∀ wm : Winchmotor, IsMoving wm = (wm, false, some Err.unimplemented, [])) ∧
    (∀ wm : Winchmotor,
      IsPowered wm = (wm, false, 0, some Err.unimplemented, [])) ∧
    (∀ wm : Winchmotor,
      Properties wm
        = (wm, { PositionReporting := false }, some Err.unimplemented, [])) ∧
    (∀ wm : Winchmotor, Stop wm = (wm, some Err.unimplemented, [])) ∧
    errUnimplementedMessage = "unimplemented" :=
  ⟨fun _ _ _ => rfl, fun _ _ _ => rfl, fun _ _ => rfl, fun _ _ => rfl,
   fun _ => rfl, fun _ => rfl, fun _ => rfl, fun _ => rfl, fun _ => rfl, rfl⟩

/-- C6: whenever board-name resolution succeeds, Reconfigure swaps the
board field to the newly resolved handle, returns success, preserves every
other field, and produces no events (in particular no pin writes). -/
theorem reconfigure_success_swaps_handle (wm : Winchmotor)
    (deps : String → Option Board) (cfg : Config) (b : Board)
    (hres : deps cfg.Board = some b) :
    Reconfigure wm deps (some cfg) = ({ wm with board := some b }, none, []) := by
  simp [Reconfigure, NativeConfig, FromDependencies, hres]

/-- Witness for reconfigure_success_swaps_handle: an unbound component
reconfigured with the resolvable name b1 becomes bound to goodBoard. -/
theorem reconfigure_success_swaps_handle_witness :
    deps1 "b1" = some goodBoard ∧
    Reconfigure unboundWM deps1 (some { Board := "b1" })
      = ({ unboundWM with board := some goodBoard }, none, []) := by
  refine ⟨rfl, ?_⟩
  exact reconfigure_success_swaps_handle unboundWM deps1 { Board := "b1" }
    goodBoard rfl

/-- C7: Close returns the unimplemented error unconditionally for every
component state, leaves the component (including its bound handle)
unchanged, and produces no events (no pin is de-energized). -/
theorem close_unimplemented (wm : Winchmotor) :
    Close wm = (wm, some Err.unimplemented, []) := rfl

/-- C8: after any Reconfigure call, the board field is nil on any failure
(including config-conversion failure) and is exactly the freshly resolved
handle on success; it is never a stale prior handle because the field is
cleared first. -/
theorem reconfigure_board_fresh_or_nil (wm : Winchmotor)
    (deps : String → Option Board) (conf : Option Config) :
    ((Reconfigure wm deps conf).2.1 ≠ none →
      (Reconfigure wm deps conf).1.board = none) ∧
    ((Reconfigure wm deps conf).2.1 = none →
      ∃ cfg : Config, conf = some cfg ∧
        (Reconfigure wm deps conf).1.board = deps cfg.Board ∧
        deps cfg.Board ≠ none) := by
  cases conf with
  | none => simp [Reconfigure, NativeConfig]
  | some cfg =>
    cases h : deps cfg.Board with
    | none => simp [Reconfigure, NativeConfig, FromDependencies, h]
    | some b => simp [Reconfigure, NativeConfig, FromDependencies, h]

/-- Witness for reconfigure_board_fresh_or_nil: a previously bound
component whose Reconfigure fails at config conversion ends up with a nil
board field. -/
theorem reconfigure_board_fresh_or_nil_witness :
    (Reconfigure boundWM deps1 none).1.board = none :=
  (reconfigure_board_fresh_or_nil boundWM deps1 none).1
    (by simp [Reconfigure, NativeConfig])

/-- C9: construction yields a component with the given identity and
diagnostic sink, an unbound board field, no error, and no events,
independently of the supplied dependencies. -/
theorem construction_unbound (deps : String → Option Board) (name : String)
    (lg : Option Logger) :
    newWinchMotor deps name lg
      = ({ name := name, logger := lg, board := none }, none, []) := rfl

/-- C10: Validate returns the single-element list holding the empty string
and no error for every configuration and path; in particular, whenever the
configured board name is nonempty, the returned dependency list is not the
list holding that board name. -/
theorem validate_placeholder (cfg : Config) (path : String) :
    Validate cfg path = ([""], none) ∧
    (cfg.Board ≠ "" → (Validate cfg path).1 ≠ [cfg.Board]) := by
  refine ⟨rfl, ?_⟩
  intro h hcontra
  simp [Validate] at hcontra
  exact h hcontra.symm

/-- Witness for validate_placeholder: with board name b1, Validate does not
return the list holding b1. -/
theorem validate_placeholder_witness :
    (Validate { Board := "b1" } "p").1 ≠ ["b1"] :=
  (validate_placeholder { Board := "b1" } "p").2 (by decide)
